import Mathlib

/-!
Shallow embedding of the review orchestration core of `ScientificReviewer.py`
(revision under `src/`): overall-rating extraction from free-form review text,
per-reviewer task execution with failure isolation, fan-out over reviewer
personas, aggregation of overall ratings into a mean, and the editorial
decision mapping.

Modelling conventions:
- Python strings are `String` / `List Char`; `str.split`, `str.strip` and
  `int(...)` are modelled by explicit structural functions below.
- Python floats are `Rat`: every number the code divides is a small integer,
  so the float arithmetic performed by the source is exact and agrees with
  rational arithmetic on all inputs the aggregation can produce.
- A language-model agent is a function `String → Except String Response`:
  the argument is the prompt `agent.invoke` receives, `Except.error e`
  models `invoke` raising an exception whose `str(...)` is `e`, and
  `Response` models the shape of the returned object.
- `st.warning` / `logging` side channels are modelled as explicitly returned
  warning lists or flags.
-/

namespace ScientificReviewer

/-- `listStarts pat l` is true when `pat` is an initial segment of `l`. -/
def listStarts : List Char → List Char → Bool
  | [], _ => true
  | _ :: _, [] => false
  | p :: ps, c :: cs => p == c && listStarts ps cs

/-- `occursIn pat l`: `pat` occurs as a contiguous segment of `l`. -/
def occursIn (pat : List Char) : List Char → Bool
  | [] => listStarts pat []
  | c :: cs => listStarts pat (c :: cs) || occursIn pat cs

/-- `containsStr s pat`: the Python `pat in s` substring test. -/
def containsStr (s pat : String) : Bool :=
  occursIn pat.data s.data

/-- Suffix of the text strictly after the last position where `sep` matches;
`none` when `sep` matches nowhere.  For a separator with no self-overlap
(such as `"Rating:"`) this is exactly the last element of Python
`text.split(sep)`. -/
def afterLastAux (sep : List Char) : List Char → Option (List Char)
  | [] => none
  | c :: cs =>
    match afterLastAux sep cs with
    | some r => some r
    | none =>
      if listStarts sep (c :: cs) then some (List.drop sep.length (c :: cs))
      else none

/-- `text.split(sep)[-1]`: the suffix after the last occurrence of `sep`,
or the whole text when `sep` does not occur. -/
def afterLast (sep : List Char) (l : List Char) : List Char :=
  (afterLastAux sep l).getD l

/-- `text.split("/")[0]`: the prefix of the text before its first slash
(the whole text when there is no slash). -/
def beforeFirstSlash : List Char → List Char
  | [] => []
  | c :: cs => if c == '/' then [] else c :: beforeFirstSlash cs

/-- Python `str.strip()`: drop whitespace from both ends. -/
def pyStrip (l : List Char) : List Char :=
  ((l.dropWhile Char.isWhitespace).reverse.dropWhile Char.isWhitespace).reverse

/-- Numeric value of a list of decimal digit characters. -/
def digitsToNat (l : List Char) : Nat :=
  l.foldl (fun acc c => acc * 10 + (c.toNat - 48)) 0

/-- Parse a nonempty all-digit character list, else `none`. -/
def digitsToInt (l : List Char) : Option Int :=
  if l ≠ [] ∧ l.all Char.isDigit then some (digitsToNat l : Int) else none

/-- Model of Python `int(s)` on a string: strip surrounding whitespace,
accept an optional single leading sign followed by one or more decimal
digits, and fail (`ValueError`, modelled as `none`) otherwise.  (Python
additionally accepts underscore digit separators and non-ASCII digits;
those corners are outside every input considered here.) -/
def pyInt (l : List Char) : Option Int :=
  match pyStrip l with
  | [] => none
  | c :: cs =>
    if c == '-' then (digitsToInt cs).map (fun n => -n)
    else if c == '+' then digitsToInt cs
    else digitsToInt (c :: cs)

/-- `int(review_text.split("Rating:")[-1].split("/")[0].strip())` wrapped in
`try/except ValueError` — the overall-rating extraction of
`calculate_average_rating` (source lines 404–409). -/
def parseOverallRating (text : String) : Option Int :=
  pyInt (pyStrip (beforeFirstSlash (afterLast ("Rating:".data) text.data)))

/-- One entry of the paper review log: `{"reviewer": ..., "review": ...}`. -/
structure PaperEntry where
  reviewer : String
  review : String
  deriving DecidableEq

/-- The `st.warning` text emitted when a rating cannot be parsed. -/
def ratingWarning (e : PaperEntry) : String :=
  "Could not extract rating from " ++ e.reviewer ++ "'s review."

/-- The loop of `calculate_average_rating`: walk the review log, collecting
the successfully parsed ratings in order and one warning per entry whose
rating raises `ValueError` (source lines 402–409). -/
def collectRatings : List PaperEntry → List Int × List String
  | [] => ([], [])
  | e :: rest =>
    let p := collectRatings rest
    match parseOverallRating e.review with
    | some r => (r :: p.1, p.2)
    | none => (p.1, ratingWarning e :: p.2)

/-- The ratings that parse successfully, in log order (specification-side
description of the loop, used to state what the mean ranges over). -/
def parsedRatings (log : List PaperEntry) : List Int :=
  log.filterMap (fun e => parseOverallRating e.review)

/-- `sum(ratings) / len(ratings)` as an exact rational. -/
def ratMean (l : List Int) : Rat :=
  (l.sum : Rat) / (l.length : Rat)

/-- `calculate_average_rating` (source lines 401–415): the mean of the
parsed ratings, or `None` when no rating parsed; paired with the warnings
the loop emitted. -/
def calculate_average_rating (log : List PaperEntry) : Option Rat × List String :=
  let p := collectRatings log
  if p.1.isEmpty then (none, p.2) else (some (ratMean p.1), p.2)

/-- `get_editorial_decision` (source lines 417–427). -/
def get_editorial_decision : Option Rat → String
  | none => "Unable to determine"
  | some m =>
    if 7 ≤ m then "Accept"
    else if 5 ≤ m ∧ m < 7 then "Minor Revision"
    else if 3 ≤ m ∧ m < 5 then "Major Revision"
    else "Reject"

/-- An element of a list-shaped model response: it either carries a
`content` attribute or it does not. -/
inductive RespElem where
  | withContent (content : String)
  | noContent
  deriving DecidableEq

/-- Shapes a Language Model Client response can take, as dynamically
inspected by `extract_content`: a plain string, an object with a `content`
attribute, a list of elements, or any other object. -/
inductive Response where
  | str (s : String)
  | obj (content : String)
  | list (elems : List RespElem)
  | other
  deriving DecidableEq

/-- Outcome of `extract_content`: a returned string together with whether
the unexpected-type warning was logged, or a raised exception. -/
inductive ExtractResult where
  | ok (text : String) (warned : Bool)
  | raised (msg : String)
  deriving DecidableEq

/-- Modelled text of the `AttributeError` raised by `response[0].content`
when the first list element has no `content` attribute (the exact Python
message text is irrelevant to every property below). -/
def attrErrorMsg : String :=
  "AttributeError: object has no attribute content"

/-- `extract_content` (source lines 26–35): return a plain string as-is;
else the object `content` attribute; else, for a non-empty list, the first
element's `content` attribute — which raises when that attribute is
missing; otherwise (empty list or any other object) log a warning and
return the supplied default. -/
def extract_content (response : Response) (default_value : String) : ExtractResult :=
  match response with
  | Response.str s => ExtractResult.ok s false
  | Response.obj c => ExtractResult.ok c false
  | Response.list (e :: _) =>
    match e with
    | RespElem.withContent c => ExtractResult.ok c false
    | RespElem.noContent => ExtractResult.raised attrErrorMsg
  | Response.list [] => ExtractResult.ok default_value true
  | Response.other => ExtractResult.ok default_value true

/-- Spec-level record of one reviewer task: the persona label, the review
text stored in the log, and whether the task's `try` block completed
without an exception (the spec's `success` flag; the source dict stores
only the first two fields). -/
structure ReviewOutcome where
  reviewer : String
  review : String
  success : Bool
  deriving DecidableEq

/-- Body of the `review_scientific_paper` loop (source lines 390–397):
invoke the agent on the prompt, normalize the response, and on any
exception store the fixed placeholder naming the reviewer. -/
def runPaperTask (invoke : String → Except String Response)
    (prompt expertise : String) : ReviewOutcome :=
  match invoke prompt with
  | Except.error _e =>
    ⟨expertise, "[Error: Issue with Reviewer " ++ expertise ++ "]", false⟩
  | Except.ok resp =>
    match extract_content resp
        ("[Error: Unable to extract response for Reviewer " ++ expertise ++ "]") with
    | ExtractResult.raised _e =>
      ⟨expertise, "[Error: Issue with Reviewer " ++ expertise ++ "]", false⟩
    | ExtractResult.ok text _w => ⟨expertise, text, true⟩

/-- Body of the `review_proposal` loop (source lines 287–294): like the
paper task but with the generic placeholder `"[Error: Issue with review]"`
(the source dict keys this entry by `"expertise"`; the field is named
`reviewer` here for uniformity). -/
def runProposalTask (invoke : String → Except String Response)
    (prompt expertise : String) : ReviewOutcome :=
  match invoke prompt with
  | Except.error _e => ⟨expertise, "[Error: Issue with review]", false⟩
  | Except.ok resp =>
    match extract_content resp "[Error: Unable to extract response]" with
    | ExtractResult.raised _e => ⟨expertise, "[Error: Issue with review]", false⟩
    | ExtractResult.ok text _w => ⟨expertise, text, true⟩

/-- The `"{expertise}"` placeholder of the prompt templates. -/
def expertiseHole : List Char := "{expertise}".data

/-- The `"{criteria}"` placeholder of the grant prompt template. -/
def criteriaHole : List Char := "{criteria}".data

/-- One simultaneous pass of `template.format(expertise=e)`: substitute
every `{expertise}` field of the template (never re-scanning substituted
text, matching Python `str.format`).  The fuel argument is an upper bound
on the number of steps — each step consumes at least one character, so
starting it at the text length makes the `0` case unreachable. -/
def format1Fuel (e : List Char) : Nat → List Char → List Char
  | 0, l => l
  | _ + 1, [] => []
  | fuel + 1, c :: cs =>
    if listStarts expertiseHole (c :: cs) then
      e ++ format1Fuel e fuel (List.drop expertiseHole.length (c :: cs))
    else c :: format1Fuel e fuel cs

/-- `template.format(expertise=e)` for templates whose only replacement
field is `{expertise}` (the paper prompt template). -/
def pyFormat1 (tpl e : String) : String :=
  String.mk (format1Fuel e.data tpl.data.length tpl.data)

/-- One simultaneous pass of `template.format(expertise=e, criteria=c)`
(the grant prompt template): both fields are substituted against the
original template only, never against substituted text. -/
def format2Fuel (e c : List Char) : Nat → List Char → List Char
  | 0, l => l
  | _ + 1, [] => []
  | fuel + 1, x :: xs =>
    if listStarts expertiseHole (x :: xs) then
      e ++ format2Fuel e c fuel (List.drop expertiseHole.length (x :: xs))
    else if listStarts criteriaHole (x :: xs) then
      c ++ format2Fuel e c fuel (List.drop criteriaHole.length (x :: xs))
    else x :: format2Fuel e c fuel xs

/-- `template.format(expertise=e, criteria=c)`. -/
def pyFormat2 (tpl e c : String) : String :=
  String.mk (format2Fuel e.data c.data tpl.data.length tpl.data)

/-- The per-reviewer prompt of `review_scientific_paper` (source lines
386–388). -/
def paperPrompt (template content expertise : String) : String :=
  pyFormat1 template expertise ++ "\n\nContent to review:\n" ++ content

/-- The criterion list chosen by `review_proposal` (source line 278). -/
def proposalCriteria (review_type : String) : List String :=
  if review_type == "NIH Proposal" then
    ["Significance", "Investigator(s)", "Innovation", "Approach", "Environment"]
  else
    ["Intellectual Merit", "Broader Impacts"]

/-- The per-reviewer prompt of `review_proposal` (source lines 282–285). -/
def proposalPrompt (template content expertise : String)
    (criteria : List String) : String :=
  pyFormat2 template expertise (String.intercalate ", " criteria)
    ++ "\n\nProposal content:\n" ++ content

/-- `review_scientific_paper` (source lines 382–399): pairwise iteration
over agents and expertises, one outcome appended per pair. -/
def review_scientific_paper (content : String)
    (agents : List (String → Except String Response))
    (expertises : List String) (template : String) : List ReviewOutcome :=
  (agents.zip expertises).map
    (fun p => runPaperTask p.1 (paperPrompt template content p.2) p.2)

/-- `review_proposal` (source lines 277–296): the criterion list is fixed
once from the review type, then pairwise iteration over agents and
expertises. -/
def review_proposal (content : String)
    (agents : List (String → Except String Response))
    (expertises : List String) (review_type template : String) : List ReviewOutcome :=
  (agents.zip expertises).map
    (fun p =>
      runProposalTask p.1
        (proposalPrompt template content p.2 (proposalCriteria review_type)) p.2)

/-- The poster prompt (source line 182; the base64 image attachments are
I/O plumbing and carry no information used by any property here). -/
def posterPrompt (prompt_template text_content : String) : String :=
  prompt_template ++ "\n\nHere's the text content extracted from the poster:\n"
    ++ text_content

/-- `analyze_poster` (source lines 181–203): on any exception the analysis
text embeds `str(e)`. -/
def analyze_poster (invoke : String → Except String Response)
    (prompt_template text_content : String) : String :=
  match invoke (posterPrompt prompt_template text_content) with
  | Except.error e => "[Error: Issue with poster analysis: " ++ e ++ "]"
  | Except.ok resp =>
    match extract_content resp "[Error: Unable to extract response for poster analysis]" with
    | ExtractResult.raised e => "[Error: Issue with poster analysis: " ++ e ++ "]"
    | ExtractResult.ok text _w => text

/-- A concrete agent whose invocation always raises. -/
def agentFail : String → Except String Response :=
  fun _ => Except.error "boom"

/-- A concrete agent whose invocation returns a plain-text review. -/
def agentOk : String → Except String Response :=
  fun _ => Except.ok (Response.str "Sound work. Rating: 8/9")

/-- `(pattern, rest)` split of a leading maximal digit run, the `\d+` step of
the criterion pattern match. -/
def takeDigits : List Char → List Char × List Char
  | [] => ([], [])
  | c :: cs =>
    if c.isDigit then
      let p := takeDigits cs
      (c :: p.1, p.2)
    else ([], c :: cs)

/-- Modelled from the spec: whether the literal pattern
`"<criterion> Rating: <digits>/9"` matches at the head of the text, yielding
the digits' value (the repository snapshot under `src/` contains no
per-criterion extractor, so §4.1's pattern is modelled from its words). -/
def matchRatingAt (crit : List Char) (l : List Char) : Option Nat :=
  let pat := crit ++ (" Rating: ".data)
  if listStarts pat l then
    let p := takeDigits (List.drop pat.length l)
    if p.1 ≠ [] ∧ listStarts ("/9".data) p.2 then some (digitsToNat p.1)
    else none
  else none

/-- Modelled from the spec: left-to-right scan for the first position where
the criterion pattern matches in full — the spec's "first match wins". -/
def extractCriterionScan (crit : List Char) : List Char → Option Nat
  | [] => none
  | c :: cs =>
    match matchRatingAt crit (c :: cs) with
    | some v => some v
    | none => extractCriterionScan crit cs

/-- Modelled from the spec: the per-criterion Rating Extractor of §4.1 —
first full case-sensitive match of `"<criterion> Rating: <digits>/9"` in the
text, absent when no position matches. -/
def extractCriterion (text crit : String) : Option Nat :=
  extractCriterionScan crit.data text.data

/-- Modelled from the spec: `extract(text, criteria)`, one optional rating
per requested criterion. -/
def extractRatings (text : String) (criteria : List String) : List (String × Option Nat) :=
  criteria.map (fun c => (c, extractCriterion text c))

/-- The spec's ModerationOutcome: synthesis text plus success flag. -/
structure ModerationOutcome where
  text : String
  success : Bool
  deriving DecidableEq

/-- Modelled from the spec: the synthesis prompt of §4.4 — the successful
reviews enumerated per persona, then the synthesis instructions (no
moderator code exists in the `src/` snapshot; no property below depends on
this exact text). -/
def moderationPrompt (outcomes : List ReviewOutcome) : String :=
  String.intercalate "\n\n"
    (outcomes.map (fun o => "Review by " ++ o.reviewer ++ ":\n" ++ o.review))
  ++ "\n\nCritique the rigor of each review, synthesize the valid points, give one final score on the 1-9 scale, and list strengths and suggestions."

/-- Modelled from the spec: the Moderator Stage of §4.4 — skip (return
`none`) unless more than one persona was configured, moderation was
requested, and at least two outcomes succeeded; otherwise one further model
call on the successful outcomes, its failure caught into a
`success = false` ModerationOutcome. -/
def moderate (numPersonas : Nat) (requested : Bool)
    (outcomes : List ReviewOutcome)
    (invoke : String → Except String Response) : Option ModerationOutcome :=
  if 1 < numPersonas ∧ requested = true
      ∧ 2 ≤ (outcomes.filter (fun o => o.success)).length then
    some
      (match invoke (moderationPrompt (outcomes.filter (fun o => o.success))) with
        | Except.error e => ⟨"[Error: Issue with moderation: " ++ e ++ "]", false⟩
        | Except.ok resp =>
          match extract_content resp "[Error: Unable to extract moderation response]" with
          | ExtractResult.raised _e => ⟨"[Error: Issue with moderation]", false⟩
          | ExtractResult.ok text _w => ⟨text, true⟩)
  else none



theorem collectRatings_fst (log : List PaperEntry) :
    (collectRatings log).1 = parsedRatings log := by
  induction log with
  | nil => rfl
  | cons e rest ih =>
    simp only [collectRatings, parsedRatings, List.filterMap_cons]
    cases h : parseOverallRating e.review <;>
      simp [h, ih, parsedRatings]

theorem collectRatings_split (log : List PaperEntry) :
    (collectRatings log).1.length + (collectRatings log).2.length = log.length := by
  induction log with
  | nil => rfl
  | cons e rest ih =>
    simp only [collectRatings]
    cases h : parseOverallRating e.review <;> simp [h] <;> omega

theorem calculate_average_rating_snd (log : List PaperEntry) :
    (calculate_average_rating log).2 = (collectRatings log).2 := by
  simp only [calculate_average_rating]
  split <;> rfl

theorem zipMapGetEq {α β γ : Type} (f : α × β → γ) (l1 : List α) (l2 : List β) :
    ∀ i : Nat, ((l1.zip l2).map f).get? i =
      (l1.get? i).bind (fun a => (l2.get? i).map (fun b => f (a, b))) := by
  induction l1 generalizing l2 with
  | nil => intro i; simp
  | cons a l ih =>
    intro i
    cases l2 with
    | nil => simp
    | cons b l2 =>
      cases i with
      | zero => simp
      | succ n => simpa using ih l2 n

/-- Claim C1: `calculate_average_rating` returns the arithmetic mean of
exactly the overall ratings that parsed from the review texts; unparsable
reviews are excluded (one warning each, never counted as zero); parsed
values outside the 1-9 scale enter the mean unclamped; and with no parsable
rating (in particular the empty log) the result is `None`, from which the
derived decision is "Unable to determine". -/
theorem c1_average_rating_mean (log : List PaperEntry) :
    (parsedRatings log = [] → (calculate_average_rating log).1 = none)
    ∧ (parsedRatings log ≠ [] →
        (calculate_average_rating log).1 = some (ratMean (parsedRatings log)))
    ∧ (calculate_average_rating log).2.length + (parsedRatings log).length = log.length
    ∧ calculate_average_rating [] = (none, [])
    ∧ get_editorial_decision (calculate_average_rating []).1 = "Unable to determine"
    ∧ (calculate_average_rating
        [⟨"A", "Overall Rating: 12/9"⟩, ⟨"B", "Rating: 0/9"⟩]).1 = some 6 := by
  refine ⟨?_, ?_, ?_, by decide, by decide, ?_⟩
  · intro h
    simp [calculate_average_rating, collectRatings_fst, h]
  · intro h
    simp [calculate_average_rating, collectRatings_fst, h]
  · rw [calculate_average_rating_snd, ← collectRatings_fst]
    have := collectRatings_split log
    omega
  · have h : collectRatings [⟨"A", "Overall Rating: 12/9"⟩, ⟨"B", "Rating: 0/9"⟩]
        = ([12, 0], []) := by decide
    simp [calculate_average_rating, h, ratMean]
    norm_num

theorem c1_witness :
    (calculate_average_rating [⟨"A", "Sound work. Rating: 9/9"⟩]).1
      = some (ratMean (parsedRatings [⟨"A", "Sound work. Rating: 9/9"⟩])) :=
  (c1_average_rating_mean [⟨"A", "Sound work. Rating: 9/9"⟩]).2.1 (by decide)

/-- Claim C2: `get_editorial_decision` maps a mean below 3 to "Reject",
means in [3,5) to "Major Revision", means in [5,7) to "Minor Revision",
means of 7 and above to "Accept", and an absent mean to "Unable to
determine"; ratings 8 and 4 average to 6 and yield "Minor Revision". -/
theorem c2_editorial_decision_bands (m : Rat) :
    (m < 3 → get_editorial_decision (some m) = "Reject")
    ∧ (3 ≤ m → m < 5 → get_editorial_decision (some m) = "Major Revision")
    ∧ (5 ≤ m → m < 7 → get_editorial_decision (some m) = "Minor Revision")
    ∧ (7 ≤ m → get_editorial_decision (some m) = "Accept")
    ∧ get_editorial_decision none = "Unable to determine"
    ∧ (calculate_average_rating
        [⟨"R1", "Good. Rating: 8/9"⟩, ⟨"R2", "Weak. Rating: 4/9"⟩]).1 = some 6
    ∧ get_editorial_decision
        (calculate_average_rating
          [⟨"R1", "Good. Rating: 8/9"⟩, ⟨"R2", "Weak. Rating: 4/9"⟩]).1
        = "Minor Revision" := by
  have hmean : (calculate_average_rating
      [⟨"R1", "Good. Rating: 8/9"⟩, ⟨"R2", "Weak. Rating: 4/9"⟩]).1 = some 6 := by
    have h : collectRatings [⟨"R1", "Good. Rating: 8/9"⟩, ⟨"R2", "Weak. Rating: 4/9"⟩]
        = ([8, 4], []) := by decide
    simp [calculate_average_rating, h, ratMean]
    norm_num
  refine ⟨?_, ?_, ?_, ?_, rfl, hmean, ?_⟩
  · intro h
    have n1 : ¬ 7 ≤ m := by linarith
    have n2 : ¬ (5 ≤ m ∧ m < 7) := by rintro ⟨a, b⟩; linarith
    have n3 : ¬ (3 ≤ m ∧ m < 5) := by rintro ⟨a, b⟩; linarith
    simp [get_editorial_decision, n1, n2, n3]
  · intro h1 h2
    have n1 : ¬ 7 ≤ m := by linarith
    have n2 : ¬ (5 ≤ m ∧ m < 7) := by rintro ⟨a, b⟩; linarith
    have p3 : 3 ≤ m ∧ m < 5 := ⟨h1, h2⟩
    simp [get_editorial_decision, n1, n2, p3]
  · intro h1 h2
    have n1 : ¬ 7 ≤ m := by linarith
    have p2 : 5 ≤ m ∧ m < 7 := ⟨h1, h2⟩
    simp [get_editorial_decision, n1, p2]
  · intro h
    simp [get_editorial_decision, h]
  · rw [hmean]
    decide



theorem c2_witness :
    get_editorial_decision (some 2) = "Reject"
      ∧ get_editorial_decision (some 8) = "Accept" :=
  ⟨(c2_editorial_decision_bands 2).1 (by norm_num),
   (c2_editorial_decision_bands 8).2.2.2.1 (by norm_num)⟩

/-- Claim C3 counterexample: in the text `"7/9"` the marker `"Rating:"` does
not occur at all, yet the extractor parses the rating 7 rather than treating
the rating as absent — `split("Rating:")[-1]` falls back to the whole text,
not to failure. -/
theorem c3_counterexample :
    containsStr "7/9" "Rating:" = false ∧ parseOverallRating "7/9" = some 7 := by
  decide

/-- Claim C3 (amended): the extractor takes the portion of the text after
the last occurrence of `"Rating:"` — the whole text when the marker does not
occur — truncates it at the first `"/"`, strips whitespace, and parses the
result as a (possibly signed) integer; when that parse fails the rating is
absent and one warning is recorded, and every review of the batch is still
processed (each log entry yields exactly one rating or one warning). -/
theorem c3_overall_extractor_amended :
    (∀ log : List PaperEntry,
      (collectRatings log).1.length + (collectRatings log).2.length = log.length)
    ∧ parseOverallRating "Summary. Rating: 8/9. Details. Rating: 3/9 end" = some 3
    ∧ parseOverallRating "Rating: x/9" = none
    ∧ parseOverallRating "no rating here" = none
    ∧ parseOverallRating "7/9" = some 7
    ∧ parseOverallRating "Rating: -3/9" = some (-3) :=
  ⟨collectRatings_split, by decide, by decide, by decide, by decide, by decide⟩

/-- Claim C4 counterexample: a model-call failure with description
`"quota exceeded"` yields, in the paper and proposal runners, a fixed
placeholder outcome that does not embed the error description anywhere. -/
theorem c4_counterexample :
    runPaperTask (fun _ => Except.error "quota exceeded") "p" "X"
        = ⟨"X", "[Error: Issue with Reviewer X]", false⟩
    ∧ containsStr (runPaperTask (fun _ => Except.error "quota exceeded") "p" "X").review
        "quota exceeded" = false
    ∧ containsStr (runProposalTask (fun _ => Except.error "quota exceeded") "p" "X").review
        "quota exceeded" = false := by
  refine ⟨rfl, ?_, ?_⟩ <;> decide

/-- Claim C4 (amended): every reviewer task runner catches every Language
Model Client failure and returns an outcome with `success = false` instead
of raising, but the stored failure reason embeds the underlying error
description only in the poster path; the paper path stores a fixed
placeholder naming the reviewer and the proposal path a generic fixed
placeholder. -/
theorem c4_runner_failure_amended :
    (∀ e prompt expertise,
      runPaperTask (fun _ => Except.error e) prompt expertise
        = ⟨expertise, "[Error: Issue with Reviewer " ++ expertise ++ "]", false⟩)
    ∧ (∀ e prompt expertise,
      runProposalTask (fun _ => Except.error e) prompt expertise
        = ⟨expertise, "[Error: Issue with review]", false⟩)
    ∧ (∀ e tpl txt,
      analyze_poster (fun _ => Except.error e) tpl txt
        = "[Error: Issue with poster analysis: " ++ e ++ "]")
    ∧ containsStr (analyze_poster (fun _ => Except.error "rate limit") "t" "c")
        "rate limit" = true := by
  refine ⟨fun e p x => rfl, fun e p x => rfl, fun e t c => rfl, by decide⟩

/-- Claim C5: with equally long agent and expertise lists, the fan-out
loops return one outcome per request, in request order, each outcome a
function of its own request alone; a failing task contributes a placeholder
outcome and leaves every other outcome untouched (demonstrated on a
concrete two-request batch with one failure). -/
theorem c5_dispatch_shape (content template rt : String)
    (agents : List (String → Except String Response)) (expertises : List String)
    (h : agents.length = expertises.length) :
    (review_scientific_paper content agents expertises template).length = agents.length
    ∧ (∀ i : Nat, (review_scientific_paper content agents expertises template).get? i
        = (agents.get? i).bind (fun a => (expertises.get? i).map (fun e =>
            runPaperTask a (paperPrompt template content e) e)))
    ∧ (review_proposal content agents expertises rt template).length = agents.length
    ∧ (∀ i : Nat, (review_proposal content agents expertises rt template).get? i
        = (agents.get? i).bind (fun a => (expertises.get? i).map (fun e =>
            runProposalTask a
              (proposalPrompt template content e (proposalCriteria rt)) e)))
    ∧ review_scientific_paper "doc" [agentFail, agentOk] ["X", "Y"] "review {expertise}"
        = [⟨"X", "[Error: Issue with Reviewer X]", false⟩,
           ⟨"Y", "Sound work. Rating: 8/9", true⟩] := by
  refine ⟨?_, ?_, ?_, ?_, by decide⟩
  · simp [review_scientific_paper, List.length_zip, h]
  · intro i
    simp only [review_scientific_paper]
    exact zipMapGetEq _ agents expertises i
  · simp [review_proposal, List.length_zip, h]
  · intro i
    simp only [review_proposal]
    exact zipMapGetEq _ agents expertises i

theorem c5_witness :
    (review_scientific_paper "doc" [agentFail, agentOk] ["X", "Y"] "t").length = 2 :=
  (c5_dispatch_shape "doc" "t" "NIH Proposal" [agentFail, agentOk] ["X", "Y"] rfl).1

/-- Claim C6: the per-criterion extractor finds, per criterion, the first
full case-sensitive match of the literal pattern
`"<criterion> Rating: <digits>/9"`, maps unmatched criteria to `none`, and
totals over the criterion set (one entry per requested criterion); on the
spec's examples it yields 7 for `"Significance Rating: 7/9\nsome text"` and
absent for `"no ratings here"`. -/
theorem c6_criterion_extractor :
    (∀ text criteria, (extractRatings text criteria).map Prod.fst = criteria)
    ∧ extractCriterion "Significance Rating: 7/9\nsome text" "Significance" = some 7
    ∧ extractCriterion "no ratings here" "Significance" = none
    ∧ extractCriterion "Significance Rating: 3/9 later Significance Rating: 8/9"
        "Significance" = some 3
    ∧ extractCriterion "significance rating: 7/9" "Significance" = none
    ∧ extractRatings "Significance Rating: 7/9" ["Significance", "Approach"]
        = [("Significance", some 7), ("Approach", none)] := by
  refine ⟨?_, by decide, by decide, by decide, by decide, by decide⟩
  intro text criteria
  induction criteria with
  | nil => rfl
  | cons c cs ih =>
    simp only [extractRatings, List.map_cons] at ih ⊢
    simp [ih]

/-- Claim C7: the Moderator Stage returns an outcome exactly when more than
one persona was configured, moderation was requested, and at least two
outcomes succeeded; in particular with a single persona it returns `none`
even when moderation is requested. -/
theorem c7_moderator_preconditions :
    (∀ np (req : Bool) outs inv,
      (moderate np req outs inv).isSome
        = (decide (1 < np) && req
            && decide (2 ≤ (outs.filter (fun o => o.success)).length)))
    ∧ (∀ (req : Bool) outs inv, moderate 1 req outs inv = none) := by
  constructor
  · intro np req outs inv
    by_cases h1 : 1 < np <;> by_cases h2 : req = true <;>
      by_cases h3 : 2 ≤ (outs.filter (fun o => o.success)).length <;>
        simp [moderate, h1, h2, h3]
  · intro req outs inv
    have h1 : ¬ (1:Nat) < 1 := by omega
    simp [moderate, h1]

/-- Claim C8 counterexample: on a non-empty list response whose first
element has no `content` field, `extract_content` raises an
`AttributeError` instead of returning the default placeholder. -/
theorem c8_counterexample :
    extract_content (Response.list [RespElem.noContent]) "[default]"
        = ExtractResult.raised attrErrorMsg
    ∧ extract_content (Response.list [RespElem.noContent]) "[default]"
        ≠ ExtractResult.ok "[default]" true := by
  exact ⟨rfl, by decide⟩

/-- Claim C8 (amended): `extract_content` returns a plain-text response
as-is, else the `content` field of a content-bearing object, else the
`content` of the first element of a non-empty list, and for an empty list
or any other shape returns the supplied default with a warning; the one
exception is a non-empty list whose first element has no `content` field,
where the attribute access raises instead of falling back to the default. -/
theorem c8_extract_content_amended :
    (∀ s d, extract_content (Response.str s) d = ExtractResult.ok s false)
    ∧ (∀ c d, extract_content (Response.obj c) d = ExtractResult.ok c false)
    ∧ (∀ c rest d, extract_content (Response.list (RespElem.withContent c :: rest)) d
        = ExtractResult.ok c false)
    ∧ (∀ d, extract_content (Response.list []) d = ExtractResult.ok d true)
    ∧ (∀ d, extract_content Response.other d = ExtractResult.ok d true)
    ∧ (∀ rest d, extract_content (Response.list (RespElem.noContent :: rest)) d
        = ExtractResult.raised attrErrorMsg) :=
  ⟨fun _ _ => rfl, fun _ _ => rfl, fun _ _ _ => rfl, fun _ => rfl, fun _ => rfl,
   fun _ _ => rfl⟩

/-- Claim C9: `review_proposal` embeds the NIH criterion set
{Significance, Investigator(s), Innovation, Approach, Environment} for the
NIH proposal type and {Intellectual Merit, Broader Impacts} for the NSF
proposal type, and every reviewer of a session receives a prompt built from
that same fixed criterion list. -/
theorem c9_proposal_criteria :
    proposalCriteria "NIH Proposal"
        = ["Significance", "Investigator(s)", "Innovation", "Approach", "Environment"]
    ∧ proposalCriteria "NSF Proposal" = ["Intellectual Merit", "Broader Impacts"]
    ∧ (∀ content template rt agents expertises (i : Nat),
        (review_proposal content agents expertises rt template).get? i
          = (agents.get? i).bind (fun a => (expertises.get? i).map (fun e =>
              runProposalTask a
                (proposalPrompt template content e (proposalCriteria rt)) e)))
    ∧ proposalPrompt "{criteria}" "" "E" (proposalCriteria "NIH Proposal")
        = "Significance, Investigator(s), Innovation, Approach, Environment\n\nProposal content:\n" := by
  refine ⟨by decide, by decide, ?_, by decide⟩
  intro content template rt agents expertises i
  simp only [review_proposal]
  exact zipMapGetEq _ agents expertises i

/-- Claim C10: when the agent and expertise lists differ in length, the
pairwise `zip` iteration silently truncates to the shorter list — the
review log's length is always the minimum of the two lengths. -/
theorem c10_zip_truncation (content template rt : String)
    (agents : List (String → Except String Response)) (expertises : List String) :
    (review_scientific_paper content agents expertises template).length
        = min agents.length expertises.length
    ∧ (review_proposal content agents expertises rt template).length
        = min agents.length expertises.length := by
  constructor
  · simp [review_scientific_paper, List.length_zip]
  · simp [review_proposal, List.length_zip]


end ScientificReviewer
